import Mathlib

/-!
Verification of the scene-edit reconciliation engine of the
CV-CHARACTER-MOVIELOG-PIPELINE repository.

The embedding below follows the source:
  * `Screen2.tsx` (the reconciliation component): scene store, dirty
    computation (`dirtyInfo`), edit handlers, Protocol A
    (`handleRegenerateAll`) and Protocol B (`handleGenerateVideoClick`);
  * `ai.service.ts`: the fetch wrapper `requestJson` (real-API variant)
    and the demo-mode `regenerateScenario`.

Async handlers are embedded as functions from the component state and the
oracle inputs (user confirmation answers, the remote call's outcome) to a
`Run`: the emitted event trace together with the sequence of observable
states.  Execution is single-threaded and suspends only at the remote
call, so the observable states are exactly: the state on entry, the state
in force while the remote call is in flight (when one is issued), and the
final state.
-/

namespace MovieLog

/-- Scene record as held in the component's live collection
(`SceneOutput` of the real-API service / the `scenes` context value). -/
structure Scene where
  id : Int
  description : String
  title : Option String := none
  duration : Int := 0
  imageUrl : Option String := none
  videoUrl : Option String := none
deriving DecidableEq, Repr

/-- Payload element sent to the remote regenerate capability
(`SceneInput` in `ai.service.ts`). -/
structure SceneInput where
  id : Int
  description : String
deriving DecidableEq, Repr

/-- Result of the remote (re)generation capability (`ScenarioResult`). -/
structure ScenarioResult where
  scenarioId : String
  scenes : List Scene
deriving DecidableEq, Repr

/-- JavaScript truthiness of a `string | null | undefined` value: `null`,
`undefined` and the empty string are falsy. -/
def jsTruthyStr : Option String → Bool
  | none => false
  | some s => s != ""

/-- JavaScript truthiness of a `number | null` value: `null` and `0` are
falsy (the `if (editingSceneId)` guard in `handleSaveEdit`). -/
def jsTruthyOptInt : Option Int → Bool
  | none => false
  | some n => n != 0

/-- Lookup in the map built by
`base.forEach((s) => baseMap.set(s.id, s.description))`: iterating in
order with overwrite, so the last occurrence of an id wins, and a missing
id yields `undefined` (here `none`). -/
def baseMapGet (base : List Scene) (i : Int) : Option String :=
  base.foldl (fun acc s => if s.id = i then some s.description else acc) none

/-- Dirty test for one live scene, from the loop body of `dirtyInfo`:
`baseDesc !== undefined && baseDesc !== s.description`. -/
def sceneIsDirty (base : List Scene) (s : Scene) : Bool :=
  match baseMapGet base s.id with
  | some d => d != s.description
  | none => false

/-- Result shape of the `dirtyInfo` memo. -/
structure DirtyInfo where
  dirtyIds : List Int
  dirtyCount : Nat
deriving DecidableEq, Repr

/-- The `dirtyInfo` memo of `Screen2.tsx`: ids of live scenes whose id is
present in the baseline with a different description, in live order, and
their count. -/
def dirtyInfo (scenes base : List Scene) : DirtyInfo :=
  let ids := (scenes.filter (fun s => sceneIsDirty base s)).map (fun s => s.id)
  { dirtyIds := ids, dirtyCount := ids.length }

/-- Component state of `Screen2`: the live collection (`scenes`), the
baseline ref (`baselineScenesRef.current`), the scenario id and the local
UI state. -/
structure Screen2State where
  scenes : List Scene
  baselineScenes : List Scene
  scenarioId : Option String
  editingSceneId : Option Int
  editedDescription : String
  isRegenerating : Bool
deriving DecidableEq, Repr

/- ---------------------------------------------------------------- -/
/- Helper lemmas about the dirty computation.                        -/
/- ---------------------------------------------------------------- -/

theorem baseMapGet_go_of_forall_ne (i : Int) (l : List Scene)
    (acc : Option String) (h : ∀ s ∈ l, s.id ≠ i) :
    l.foldl (fun acc s => if s.id = i then some s.description else acc) acc
      = acc := by
  induction l generalizing acc with
  | nil => rfl
  | cons a t ih =>
    have ha : a.id ≠ i := h a (List.mem_cons_self a t)
    simp only [List.foldl_cons, if_neg ha]
    exact ih acc (fun s hs => h s (List.mem_cons_of_mem a hs))

theorem baseMapGet_eq_none_of_not_mem (base : List Scene) (i : Int)
    (h : ∀ s ∈ base, s.id ≠ i) : baseMapGet base i = none :=
  baseMapGet_go_of_forall_ne i base none h

theorem baseMapGet_go_isSome (i : Int) (l : List Scene) (acc : Option String)
    (h : ∃ s ∈ l, s.id = i) :
    (l.foldl (fun acc s => if s.id = i then some s.description else acc)
      acc).isSome := by
  induction l generalizing acc with
  | nil => obtain ⟨s, hs, _⟩ := h; cases hs
  | cons a t ih =>
    by_cases ht : ∃ s ∈ t, s.id = i
    · simp only [List.foldl_cons]
      exact ih _ ht
    · push_neg at ht
      obtain ⟨s, hs, hsid⟩ := h
      rcases List.mem_cons.mp hs with rfl | hmem
      · simp only [List.foldl_cons, if_pos hsid]
        rw [baseMapGet_go_of_forall_ne i t _ ht]
        simp
      · exact absurd hsid (ht s hmem)

theorem baseMapGet_isSome_of_mem (base : List Scene) (s : Scene)
    (hs : s ∈ base) : (baseMapGet base s.id).isSome :=
  baseMapGet_go_isSome s.id base none ⟨s, hs, rfl⟩

theorem mem_dirtyIds_iff (scenes base : List Scene) (i : Int) :
    i ∈ (dirtyInfo scenes base).dirtyIds ↔
      ∃ s ∈ scenes, s.id = i ∧
        ∃ d, baseMapGet base i = some d ∧ d ≠ s.description := by
  unfold dirtyInfo
  simp only [List.mem_map, List.mem_filter]
  constructor
  · rintro ⟨s, ⟨hmem, hdirty⟩, hid⟩
    refine ⟨s, hmem, hid, ?_⟩
    unfold sceneIsDirty at hdirty
    rw [hid] at hdirty
    cases hb : baseMapGet base i with
    | none => rw [hb] at hdirty; simp at hdirty
    | some d =>
      rw [hb] at hdirty
      exact ⟨d, rfl, by simpa using hdirty⟩
  · rintro ⟨s, hmem, hid, d, hb, hne⟩
    refine ⟨s, ⟨hmem, ?_⟩, hid⟩
    unfold sceneIsDirty
    rw [hid, hb]
    simpa using hne

theorem dirtyCount_def (scenes base : List Scene) :
    (dirtyInfo scenes base).dirtyCount = (dirtyInfo scenes base).dirtyIds.length := rfl

/- ---------------------------------------------------------------- -/
/- Edit handlers and the baseline-capture effect.                    -/
/- ---------------------------------------------------------------- -/

/-- The `useEffect` of `Screen2.tsx` that initializes the baseline:
`if (baselineScenesRef.current.length === 0 && scenes.length > 0)
  baselineScenesRef.current = scenes`. -/
def captureBaselineIfEmpty (st : Screen2State) : Screen2State :=
  if st.baselineScenes.length = 0 ∧ st.scenes.length > 0 then
    { st with baselineScenes := st.scenes }
  else st

/-- The `handleEditScene` handler: opens the inline editor on a scene. -/
def handleEditScene (st : Screen2State) (sceneId : Int)
    (description : String) : Screen2State :=
  { st with editingSceneId := some sceneId, editedDescription := description }

/-- The `handleSaveEdit` handler.  The guard is the source's
`if (editingSceneId)`, i.e. JavaScript truthiness on `number | null`; on
the truthy branch the live collection is mapped, replacing the
description of each scene whose id equals the editing id, and the editor
state is cleared. -/
def handleSaveEdit (st : Screen2State) : Screen2State :=
  if jsTruthyOptInt st.editingSceneId then
    let eid := st.editingSceneId.getD 0
    { st with
        scenes := st.scenes.map (fun scene =>
          if scene.id = eid then { scene with description := st.editedDescription }
          else scene),
        editingSceneId := none,
        editedDescription := "" }
  else st

/-- The `handleCancelEdit` handler. -/
def handleCancelEdit (st : Screen2State) : Screen2State :=
  { st with editingSceneId := none, editedDescription := "" }

/- ---------------------------------------------------------------- -/
/- The two resync protocols as event-trace producing functions.      -/
/- ---------------------------------------------------------------- -/

/-- Externally visible effects of a handler run. -/
inductive Event where
  /-- a call to `AIService.regenerateScenario scenarioId payload img` -/
  | remoteCall (scenarioId : String) (payload : List SceneInput) (img : String)
  /-- a `window.alert` -/
  | alert (msg : String)
  /-- a `window.confirm` prompt -/
  | confirmPrompt (msg : String)
  /-- the `onNext()` continuation (advance to the video stage) -/
  | nextInvoked
deriving DecidableEq, Repr

/-- Whether an event is a remote regenerate call. -/
def Event.isRemoteCall : Event → Bool
  | Event.remoteCall _ _ _ => true
  | _ => false

/-- One execution of an async handler: the events it emitted, in order,
and the observable states.  `observables` always starts with the state on
entry and ends with the final state; when the run issues a remote call it
has exactly one middle element, the state in force from the issuing of
the call to its completion (the only suspension point). -/
structure Run where
  events : List Event
  observables : List Screen2State
  final : Screen2State
deriving DecidableEq, Repr

/-- Run of a handler that is ignored or returns synchronously without
touching the state. -/
def noopRun (st : Screen2State) : Run :=
  { events := [], observables := [st], final := st }

/-- Confirmation text of `handleRegenerateAll`. -/
def regenerateAllConfirmMsg : String :=
  "전체 재생성을 실행할까요?\n- 현재 수정한 내용은 무시되고\n- 모든 장면을 다시 생성/갱신합니다."

/-- Failure alert of `handleRegenerateAll`. -/
def regenerateAllFailMsg : String :=
  "전체 재생성에 실패했습니다. 잠시 후 다시 시도해주세요."

/-- Alert shown by `handleGenerateVideoClick` when no scenario id exists. -/
def noScenarioIdMsg : String :=
  "scenarioId가 없습니다. 다시 시도해주세요."

/-- Confirmation text of `handleGenerateVideoClick` when an edit is open. -/
def unsavedEditConfirmMsg : String :=
  "편집 중인 장면이 있습니다. 저장하지 않고 진행할까요?"

/-- Failure alert of the incremental sync in `handleGenerateVideoClick`. -/
def updateFailMsg : String :=
  "수정사항 반영(프롬프트 업데이트)에 실패했습니다. 다시 시도해주세요."

/-- Protocol A, `handleRegenerateAll`: guarded by a truthy `scenarioId`
and a confirmation prompt; sets the in-progress flag, resets the live
collection to the source (the baseline when non-empty, otherwise the
current live collection), issues the remote call with the source's
(id, description) pairs, and on success adopts the result as scenario id,
live collection and baseline in one synchronous segment; on failure
alerts; the flag is cleared in the `finally` block either way.
`confirmOk` is the user's answer to the prompt and `remote` the outcome
of the remote call. -/
def handleRegenerateAll (st : Screen2State) (confirmOk : Bool)
    (img : String) (remote : Except String ScenarioResult) : Run :=
  if jsTruthyStr st.scenarioId = false then noopRun st
  else if confirmOk = false then
    { events := [Event.confirmPrompt regenerateAllConfirmMsg],
      observables := [st], final := st }
  else
    let sid := st.scenarioId.getD ""
    let base := if st.baselineScenes.length > 0 then st.baselineScenes else st.scenes
    let mid : Screen2State := { st with isRegenerating := true, scenes := base }
    let payload := base.map (fun s => SceneInput.mk s.id s.description)
    match remote with
    | Except.ok r =>
      let fin : Screen2State :=
        { mid with scenarioId := some r.scenarioId, scenes := r.scenes,
                   baselineScenes := r.scenes, isRegenerating := false }
      { events := [Event.confirmPrompt regenerateAllConfirmMsg,
                   Event.remoteCall sid payload img],
        observables := [st, mid, fin], final := fin }
    | Except.error _ =>
      let fin : Screen2State := { mid with isRegenerating := false }
      { events := [Event.confirmPrompt regenerateAllConfirmMsg,
                   Event.remoteCall sid payload img,
                   Event.alert regenerateAllFailMsg],
        observables := [st, mid, fin], final := fin }

/-- Body of `handleGenerateVideoClick` after the scenario-id and
edit-in-progress gates: `orig` is the state on entry (first observable),
`st` the state after the gates (editor possibly closed), `pre` the events
the gates emitted. -/
def generateVideoCore (orig st : Screen2State) (pre : List Event)
    (img : String) (remote : Except String ScenarioResult) : Run :=
  if (dirtyInfo st.scenes st.baselineScenes).dirtyCount > 0 then
    let sid := st.scenarioId.getD ""
    let mid : Screen2State := { st with isRegenerating := true }
    let payload := st.scenes.map (fun s => SceneInput.mk s.id s.description)
    match remote with
    | Except.ok r =>
      let fin : Screen2State :=
        { mid with scenarioId := some r.scenarioId, scenes := r.scenes,
                   baselineScenes := r.scenes, isRegenerating := false }
      { events := pre ++ [Event.remoteCall sid payload img, Event.nextInvoked],
        observables := [orig, mid, fin], final := fin }
    | Except.error _ =>
      let fin : Screen2State := { mid with isRegenerating := false }
      { events := pre ++ [Event.remoteCall sid payload img,
                          Event.alert updateFailMsg],
        observables := [orig, mid, fin], final := fin }
  else
    { events := pre ++ [Event.nextInvoked], observables := [orig, st], final := st }

/-- Protocol B, `handleGenerateVideoClick`: alerts and stops when the
scenario id is falsy; when an edit is open (strict `!== null` check) asks
for confirmation and, if granted, closes the editor without saving; then
if `dirtyCount > 0` runs the incremental sync (flag set, remote call with
the live collection's (id, description) pairs, on success adopt result as
scenario id, live collection and baseline, on failure alert and stop),
and finally advances via `onNext()` unless the sync failed.
`confirmProceed` is the user's answer to the unsaved-edit prompt. -/
def handleGenerateVideoClick (st : Screen2State) (confirmProceed : Bool)
    (img : String) (remote : Except String ScenarioResult) : Run :=
  if jsTruthyStr st.scenarioId = false then
    { events := [Event.alert noScenarioIdMsg], observables := [st], final := st }
  else
    match st.editingSceneId with
    | some _ =>
      if confirmProceed = false then
        { events := [Event.confirmPrompt unsavedEditConfirmMsg],
          observables := [st], final := st }
      else
        generateVideoCore st
          { st with editingSceneId := none, editedDescription := "" }
          [Event.confirmPrompt unsavedEditConfirmMsg] img remote
    | none => generateVideoCore st st [] img remote

/-- The `disabled` condition of the REGENERATE ALL button:
`isRegenerating || !scenarioId`. -/
def isRegenAllDisabled (st : Screen2State) : Bool :=
  st.isRegenerating || !(jsTruthyStr st.scenarioId)

/-- Clicking the REGENERATE ALL button: a disabled button ignores the
click, otherwise `handleRegenerateAll` runs. -/
def clickRegenerateAll (st : Screen2State) (confirmOk : Bool)
    (img : String) (remote : Except String ScenarioResult) : Run :=
  if isRegenAllDisabled st then noopRun st
  else handleRegenerateAll st confirmOk img remote

/-- Clicking the generate-video button (`disabled={isRegenerating}`): a
disabled button ignores the click, otherwise `handleGenerateVideoClick`
runs. -/
def clickGenerateVideo (st : Screen2State) (confirmProceed : Bool)
    (img : String) (remote : Except String ScenarioResult) : Run :=
  if st.isRegenerating then noopRun st
  else handleGenerateVideoClick st confirmProceed img remote

/- ---------------------------------------------------------------- -/
/- The fetch wrapper requestJson of ai.service.ts (real-API variant).-/
/- ---------------------------------------------------------------- -/

/-- A JavaScript value as far as the error-message fallback chain of
`requestJson` observes it: either `undefined` (an absent field reached
through optional chaining) or a string.  Error payload fields are
modelled as strings, the only shape the fallback chain is specified
over. -/
inductive JsVal where
  | undef
  | str (s : String)
deriving DecidableEq, Repr

/-- JavaScript truthiness of a `JsVal`: `undefined` and `""` are falsy. -/
def JsVal.truthy : JsVal → Bool
  | JsVal.undef => false
  | JsVal.str s => s != ""

/-- The JavaScript `||` operator on such values. -/
def jsOrV (a b : JsVal) : JsVal := if a.truthy then a else b

/-- Template-literal coercion of the chained value to a string. -/
def JsVal.toStr : JsVal → String
  | JsVal.undef => "undefined"
  | JsVal.str s => s

/-- View of an `Option String` field as the value optional chaining
yields: `undefined` when absent. -/
def optToJs : Option String → JsVal
  | none => JsVal.undef
  | some s => JsVal.str s

/-- The nested `error` object of an error payload (`payload.error`). -/
structure ApiError where
  message : Option String
deriving DecidableEq, Repr

/-- The parsed response body as the fallback chain of `requestJson`
reads it: the optional `error.message`, `detail` and `message` fields. -/
structure ApiPayload where
  error : Option ApiError
  detail : Option String
  message : Option String
deriving DecidableEq, Repr

/-- An HTTP response as `requestJson` consumes it: the `ok` flag, the
status code, the body text, and the outcome of `JSON.parse` on a
non-empty body (`none` models a parse failure, swallowed by the
source's `try/catch`). -/
structure HttpResponse where
  ok : Bool
  status : Nat
  text : String
  jsonParse : Option ApiPayload
deriving DecidableEq, Repr

/-- `payload = text ? JSON.parse(text) : null`, with the catch-to-null. -/
def parsedPayload (res : HttpResponse) : Option ApiPayload :=
  if res.text = "" then none else res.jsonParse

/-- `payload?.error?.message`. -/
def payloadErrorMessage (p : Option ApiPayload) : Option String :=
  (p.bind (fun q => q.error)).bind (fun e => e.message)

/-- `payload?.detail`. -/
def payloadDetail (p : Option ApiPayload) : Option String :=
  p.bind (fun q => q.detail)

/-- `payload?.message`. -/
def payloadMessage (p : Option ApiPayload) : Option String :=
  p.bind (fun q => q.message)

/-- The fetch wrapper `requestJson`: on a non-ok response it throws
`new Error` with `` `API Error: ${message}` `` where `message` is the
source's `||` chain over `payload?.error?.message`, `payload?.detail`,
`payload?.message`, the raw body text and `` `HTTP ${status}` ``; on an
ok response it returns the parsed payload. -/
def requestJson (res : HttpResponse) : Except String (Option ApiPayload) :=
  let payload := parsedPayload res
  if res.ok = false then
    let message :=
      jsOrV (jsOrV (jsOrV (jsOrV (optToJs (payloadErrorMessage payload))
                                 (optToJs (payloadDetail payload)))
                          (optToJs (payloadMessage payload)))
                   (JsVal.str res.text))
            (JsVal.str ("HTTP " ++ toString res.status))
    Except.error ("API Error: " ++ message.toStr)
  else
    Except.ok payload

/-- Modelled from the spec (for the refinement statement of the error
fallback): the single message the spec prescribes, by fallback priority —
the structured error field's message if truthy, else the detail field,
else the message field, else the raw response body text, else
`HTTP <status>`. -/
def specFallbackMessage (e d m : Option String) (text : String)
    (status : Nat) : String :=
  if jsTruthyStr e then e.getD "" else
  if jsTruthyStr d then d.getD "" else
  if jsTruthyStr m then m.getD "" else
  if text ≠ "" then text else
  "HTTP " ++ toString status

/- ---------------------------------------------------------------- -/
/- The demo-mode AI service (demo variant of ai.service.ts).         -/
/- ---------------------------------------------------------------- -/

/-- Scene record produced by the demo-mode service (`SceneOutput` of the
demo variant, with its `duration_sec` field). -/
structure DemoSceneOutput where
  id : Int
  description : String
  imageUrl : Option String := none
  videoUrl : Option String := none
  title : Option String := none
  duration_sec : Int
deriving DecidableEq, Repr

/-- Result of the demo-mode service calls. -/
structure DemoScenarioResult where
  scenarioId : String
  scenes : List DemoSceneOutput
deriving DecidableEq, Repr

/-- The demo-mode `AIService.regenerateScenario`: echoes the scenario id
and maps each input scene to an output scene by spreading it and adding
the demo image url, a `Scene <id>` title and a 4-second duration. -/
def demoRegenerateScenario (scenarioId : String)
    (scenes : List SceneInput) : DemoScenarioResult :=
  { scenarioId := scenarioId,
    scenes := scenes.map (fun scene =>
      { id := scene.id,
        description := scene.description,
        imageUrl := some ("/demo/images/scene-" ++ toString scene.id ++ ".png"),
        videoUrl := none,
        title := some ("Scene " ++ toString scene.id),
        duration_sec := 4 }) }

/- ---------------------------------------------------------------- -/
/- Further helper lemmas.                                            -/
/- ---------------------------------------------------------------- -/

theorem baseMapGet_isSome_iff (base : List Scene) (i : Int) :
    (baseMapGet base i).isSome ↔ ∃ s ∈ base, s.id = i := by
  constructor
  · intro h
    by_contra hno
    push_neg at hno
    rw [baseMapGet_eq_none_of_not_mem base i hno] at h
    simp at h
  · rintro ⟨s, hs, rfl⟩
    exact baseMapGet_isSome_of_mem base s hs

theorem baseMapGet_self_of_nodup (l : List Scene)
    (hnodup : (l.map Scene.id).Nodup) :
    ∀ s ∈ l, baseMapGet l s.id = some s.description := by
  induction l with
  | nil => intro s hs; cases hs
  | cons a t ih =>
    rw [List.map_cons, List.nodup_cons] at hnodup
    intro s hs
    rcases List.mem_cons.mp hs with rfl | hmem
    · unfold baseMapGet
      simp only [List.foldl_cons, if_pos rfl]
      refine baseMapGet_go_of_forall_ne s.id t _ (fun u hu => ?_)
      intro hid
      exact hnodup.1 (hid ▸ List.mem_map_of_mem Scene.id hu)
    · have hne : a.id ≠ s.id := fun hid =>
        hnodup.1 (hid ▸ List.mem_map_of_mem Scene.id hmem)
      unfold baseMapGet
      simp only [List.foldl_cons, if_neg hne]
      exact ih hnodup.2 s hmem

theorem dirtyCount_self_of_nodup (l : List Scene)
    (hnodup : (l.map Scene.id).Nodup) :
    (dirtyInfo l l).dirtyCount = 0 := by
  unfold dirtyInfo
  have hfilter : l.filter (fun s => sceneIsDirty l s) = [] := by
    refine List.filter_eq_nil_iff.mpr (fun s hs => ?_)
    unfold sceneIsDirty
    rw [baseMapGet_self_of_nodup l hnodup s hs]
    simp
  simp [hfilter]

/- Reduction lemmas for the protocol handlers.                       -/

theorem handleRegenerateAll_ok (st : Screen2State) (img : String)
    (r : ScenarioResult) (base : List Scene)
    (hbase : base = if st.baselineScenes.length > 0 then st.baselineScenes else st.scenes)
    (hsid : jsTruthyStr st.scenarioId = true) :
    handleRegenerateAll st true img (Except.ok r) =
      { events := [Event.confirmPrompt regenerateAllConfirmMsg,
                   Event.remoteCall (st.scenarioId.getD "")
                     (base.map (fun s => SceneInput.mk s.id s.description)) img],
        observables := [st, { st with isRegenerating := true, scenes := base },
          { st with scenarioId := some r.scenarioId, scenes := r.scenes,
                    baselineScenes := r.scenes, isRegenerating := false }],
        final := { st with scenarioId := some r.scenarioId, scenes := r.scenes,
                           baselineScenes := r.scenes, isRegenerating := false } } := by
  subst hbase
  unfold handleRegenerateAll
  rw [hsid]
  simp

theorem handleRegenerateAll_err (st : Screen2State) (img : String)
    (e : String) (base : List Scene)
    (hbase : base = if st.baselineScenes.length > 0 then st.baselineScenes else st.scenes)
    (hsid : jsTruthyStr st.scenarioId = true) :
    handleRegenerateAll st true img (Except.error e) =
      { events := [Event.confirmPrompt regenerateAllConfirmMsg,
                   Event.remoteCall (st.scenarioId.getD "")
                     (base.map (fun s => SceneInput.mk s.id s.description)) img,
                   Event.alert regenerateAllFailMsg],
        observables := [st, { st with isRegenerating := true, scenes := base },
          { st with isRegenerating := false, scenes := base }],
        final := { st with isRegenerating := false, scenes := base } } := by
  subst hbase
  unfold handleRegenerateAll
  rw [hsid]
  simp

theorem generateVideoCore_ok (orig stX : Screen2State) (pre : List Event)
    (img : String) (r : ScenarioResult)
    (hdirty : (dirtyInfo stX.scenes stX.baselineScenes).dirtyCount > 0) :
    generateVideoCore orig stX pre img (Except.ok r) =
      { events := pre ++ [Event.remoteCall (stX.scenarioId.getD "")
          (stX.scenes.map (fun s => SceneInput.mk s.id s.description)) img,
          Event.nextInvoked],
        observables := [orig, { stX with isRegenerating := true },
          { stX with scenarioId := some r.scenarioId, scenes := r.scenes,
                     baselineScenes := r.scenes, isRegenerating := false }],
        final := { stX with scenarioId := some r.scenarioId, scenes := r.scenes,
                            baselineScenes := r.scenes, isRegenerating := false } } := by
  unfold generateVideoCore
  rw [if_pos hdirty]

theorem generateVideoCore_err (orig stX : Screen2State) (pre : List Event)
    (img : String) (e : String)
    (hdirty : (dirtyInfo stX.scenes stX.baselineScenes).dirtyCount > 0) :
    generateVideoCore orig stX pre img (Except.error e) =
      { events := pre ++ [Event.remoteCall (stX.scenarioId.getD "")
          (stX.scenes.map (fun s => SceneInput.mk s.id s.description)) img,
          Event.alert updateFailMsg],
        observables := [orig, { stX with isRegenerating := true },
          { stX with isRegenerating := false }],
        final := { stX with isRegenerating := false } } := by
  unfold generateVideoCore
  rw [if_pos hdirty]

theorem generateVideoCore_clean (orig stX : Screen2State) (pre : List Event)
    (img : String) (remote : Except String ScenarioResult)
    (hclean : (dirtyInfo stX.scenes stX.baselineScenes).dirtyCount = 0) :
    generateVideoCore orig stX pre img remote =
      { events := pre ++ [Event.nextInvoked],
        observables := [orig, stX], final := stX } := by
  unfold generateVideoCore
  rw [if_neg (by omega)]

theorem handleGenerateVideoClick_noEdit (st : Screen2State)
    (confirmProceed : Bool) (img : String)
    (remote : Except String ScenarioResult)
    (hsid : jsTruthyStr st.scenarioId = true)
    (hedit : st.editingSceneId = none) :
    handleGenerateVideoClick st confirmProceed img remote =
      generateVideoCore st st [] img remote := by
  unfold handleGenerateVideoClick
  rw [hsid, hedit]
  simp

theorem handleGenerateVideoClick_editConfirm (st : Screen2State)
    (img : String) (remote : Except String ScenarioResult) (e : Int)
    (hsid : jsTruthyStr st.scenarioId = true)
    (hedit : st.editingSceneId = some e) :
    handleGenerateVideoClick st true img remote =
      generateVideoCore st
        { st with editingSceneId := none, editedDescription := "" }
        [Event.confirmPrompt unsavedEditConfirmMsg] img remote := by
  unfold handleGenerateVideoClick
  rw [hsid, hedit]
  simp

theorem handleRegenerateAll_noSid (st : Screen2State) (c : Bool)
    (img : String) (remote : Except String ScenarioResult)
    (hsid : jsTruthyStr st.scenarioId = false) :
    handleRegenerateAll st c img remote = noopRun st := by
  unfold handleRegenerateAll
  rw [hsid]
  simp

theorem handleRegenerateAll_declined (st : Screen2State)
    (img : String) (remote : Except String ScenarioResult)
    (hsid : jsTruthyStr st.scenarioId = true) :
    handleRegenerateAll st false img remote =
      { events := [Event.confirmPrompt regenerateAllConfirmMsg],
        observables := [st], final := st } := by
  unfold handleRegenerateAll
  rw [hsid]
  simp

theorem handleGenerateVideoClick_noSid (st : Screen2State) (c : Bool)
    (img : String) (remote : Except String ScenarioResult)
    (hsid : jsTruthyStr st.scenarioId = false) :
    handleGenerateVideoClick st c img remote =
      { events := [Event.alert noScenarioIdMsg],
        observables := [st], final := st } := by
  unfold handleGenerateVideoClick
  rw [hsid]
  simp

theorem handleGenerateVideoClick_editDeclined (st : Screen2State)
    (img : String) (remote : Except String ScenarioResult) (i : Int)
    (hsid : jsTruthyStr st.scenarioId = true)
    (hedit : st.editingSceneId = some i) :
    handleGenerateVideoClick st false img remote =
      { events := [Event.confirmPrompt unsavedEditConfirmMsg],
        observables := [st], final := st } := by
  unfold handleGenerateVideoClick
  rw [hsid, hedit]
  simp

theorem generateVideoCore_flag (orig stX : Screen2State) (pre : List Event)
    (img : String) (remote : Except String ScenarioResult)
    (hpre : ∀ e ∈ pre, e.isRemoteCall = false)
    (hcall : ∃ e ∈ (generateVideoCore orig stX pre img remote).events,
      e.isRemoteCall = true) :
    ∃ mid fin : Screen2State,
      (generateVideoCore orig stX pre img remote).observables = [orig, mid, fin]
      ∧ mid.isRegenerating = true ∧ fin.isRegenerating = false
      ∧ (generateVideoCore orig stX pre img remote).final = fin := by
  by_cases hd : (dirtyInfo stX.scenes stX.baselineScenes).dirtyCount > 0
  · cases remote with
    | ok r =>
      rw [generateVideoCore_ok _ _ _ _ _ hd]
      exact ⟨_, _, rfl, rfl, rfl, rfl⟩
    | error e =>
      rw [generateVideoCore_err _ _ _ _ _ hd]
      exact ⟨_, _, rfl, rfl, rfl, rfl⟩
  · have hz : (dirtyInfo stX.scenes stX.baselineScenes).dirtyCount = 0 := by omega
    rw [generateVideoCore_clean _ _ _ _ _ hz] at hcall
    obtain ⟨e, he, hre⟩ := hcall
    rcases List.mem_append.mp he with h | h
    · rw [hpre e h] at hre
      cases hre
    · simp only [List.mem_singleton] at h
      subst h
      cases hre

theorem generateVideoCore_baseline (orig stX : Screen2State)
    (pre : List Event) (img : String)
    (remote : Except String ScenarioResult)
    (hb : stX.baselineScenes = orig.baselineScenes)
    (h : (generateVideoCore orig stX pre img remote).final.baselineScenes
      ≠ orig.baselineScenes) :
    ∃ r, remote = Except.ok r
      ∧ (generateVideoCore orig stX pre img remote).final.baselineScenes
          = r.scenes := by
  by_cases hd : (dirtyInfo stX.scenes stX.baselineScenes).dirtyCount > 0
  · cases remote with
    | ok r =>
      rw [generateVideoCore_ok _ _ _ _ _ hd]
      exact ⟨r, rfl, rfl⟩
    | error e =>
      rw [generateVideoCore_err _ _ _ _ _ hd] at h
      exact absurd hb h
  · have hz : (dirtyInfo stX.scenes stX.baselineScenes).dirtyCount = 0 := by omega
    rw [generateVideoCore_clean _ _ _ _ _ hz] at h
    exact absurd hb h

/- ---------------------------------------------------------------- -/
/- Claim theorems.                                                   -/
/- ---------------------------------------------------------------- -/

/-- C1: for every live collection and baseline, an id is marked dirty by
`dirtyInfo` iff it is the id of a live scene, occurs in the baseline map
(`baseMapGet`, whose domain is exactly the ids occurring in the
baseline), and the live and baseline descriptions differ under strict
inequality; an id absent from the baseline is never dirty; `dirtyCount`
is the number of dirty ids. -/
theorem dirty_computation_characterization (scenes base : List Scene) (i : Int) :
    (i ∈ (dirtyInfo scenes base).dirtyIds ↔
      ∃ s ∈ scenes, s.id = i ∧
        ∃ d, baseMapGet base i = some d ∧ d ≠ s.description)
    ∧ ((baseMapGet base i).isSome ↔ ∃ t ∈ base, t.id = i)
    ∧ ((∀ t ∈ base, t.id ≠ i) → i ∉ (dirtyInfo scenes base).dirtyIds)
    ∧ (dirtyInfo scenes base).dirtyCount = (dirtyInfo scenes base).dirtyIds.length := by
  refine ⟨mem_dirtyIds_iff scenes base i, baseMapGet_isSome_iff base i, ?_, rfl⟩
  intro habsent hmem
  obtain ⟨s, _, _, d, hd, _⟩ := (mem_dirtyIds_iff scenes base i).mp hmem
  rw [baseMapGet_eq_none_of_not_mem base i habsent] at hd
  cases hd

/-- Witness for C1 at the spec's own example: baseline
`[(1, A), (2, B)]`, live `[(1, A2), (2, B)]` makes exactly id 1 dirty. -/
theorem dirty_computation_characterization_witness :
    1 ∈ (dirtyInfo [{ id := 1, description := "A2" }, { id := 2, description := "B" }]
      [{ id := 1, description := "A" }, { id := 2, description := "B" }]).dirtyIds :=
  (dirty_computation_characterization
    [{ id := 1, description := "A2" }, { id := 2, description := "B" }]
    [{ id := 1, description := "A" }, { id := 2, description := "B" }] 1).1.mpr
    ⟨{ id := 1, description := "A2" }, by simp, rfl, "A", by decide, by decide⟩

/-- C2: whenever a resync's remote regenerate call succeeds — Protocol A
with confirmation accepted, or Protocol B attempted with dirtiness
present and the edit-in-progress gate resolved — the engine adopts the
result's scenario id and sets the live collection and the baseline both
to the returned scene collection; every observable state of the run
either still has the pre-call baseline or has live collection, baseline
and scenario id all already adopted (the commit is one synchronous
segment, so no reader sees only one of them updated); and the dirty
computation on the resulting state yields `dirtyCount = 0` (given the
data model's guarantee that the returned scene ids are unique). -/
theorem resync_success_adopts_result_atomically
    (st : Screen2State) (r : ScenarioResult) (img : String)
    (confirmProceed : Bool)
    (hsid : jsTruthyStr st.scenarioId = true)
    (hnodup : (r.scenes.map Scene.id).Nodup) :
    ((handleRegenerateAll st true img (Except.ok r)).final.scenarioId = some r.scenarioId
      ∧ (handleRegenerateAll st true img (Except.ok r)).final.scenes = r.scenes
      ∧ (handleRegenerateAll st true img (Except.ok r)).final.baselineScenes = r.scenes
      ∧ (dirtyInfo (handleRegenerateAll st true img (Except.ok r)).final.scenes
          (handleRegenerateAll st true img (Except.ok r)).final.baselineScenes).dirtyCount = 0
      ∧ ∀ ob ∈ (handleRegenerateAll st true img (Except.ok r)).observables,
          ob.baselineScenes = st.baselineScenes
          ∨ (ob.scenes = r.scenes ∧ ob.baselineScenes = r.scenes
             ∧ ob.scenarioId = some r.scenarioId))
    ∧ ((st.editingSceneId = none ∨ confirmProceed = true) →
       (dirtyInfo st.scenes st.baselineScenes).dirtyCount > 0 →
       (handleGenerateVideoClick st confirmProceed img (Except.ok r)).final.scenarioId = some r.scenarioId
       ∧ (handleGenerateVideoClick st confirmProceed img (Except.ok r)).final.scenes = r.scenes
       ∧ (handleGenerateVideoClick st confirmProceed img (Except.ok r)).final.baselineScenes = r.scenes
       ∧ (dirtyInfo (handleGenerateVideoClick st confirmProceed img (Except.ok r)).final.scenes
           (handleGenerateVideoClick st confirmProceed img (Except.ok r)).final.baselineScenes).dirtyCount = 0
       ∧ ∀ ob ∈ (handleGenerateVideoClick st confirmProceed img (Except.ok r)).observables,
           ob.baselineScenes = st.baselineScenes
           ∨ (ob.scenes = r.scenes ∧ ob.baselineScenes = r.scenes
              ∧ ob.scenarioId = some r.scenarioId)) := by
  constructor
  · rw [handleRegenerateAll_ok st img r _ rfl hsid]
    refine ⟨rfl, rfl, rfl, dirtyCount_self_of_nodup r.scenes hnodup, ?_⟩
    intro ob hob
    simp only [List.mem_cons, List.not_mem_nil, or_false] at hob
    rcases hob with rfl | rfl | rfl
    · exact Or.inl rfl
    · exact Or.inl rfl
    · exact Or.inr ⟨rfl, rfl, rfl⟩
  · intro hgate hdirty
    cases hedit : st.editingSceneId with
    | none =>
      rw [handleGenerateVideoClick_noEdit st confirmProceed img _ hsid hedit,
          generateVideoCore_ok st st [] img r hdirty]
      refine ⟨rfl, rfl, rfl, dirtyCount_self_of_nodup r.scenes hnodup, ?_⟩
      intro ob hob
      simp only [List.mem_cons, List.not_mem_nil, or_false] at hob
      rcases hob with rfl | rfl | rfl
      · exact Or.inl rfl
      · exact Or.inl rfl
      · exact Or.inr ⟨rfl, rfl, rfl⟩
    | some e =>
      have hc : confirmProceed = true := by
        rcases hgate with h | h
        · rw [hedit] at h; cases h
        · exact h
      subst hc
      rw [handleGenerateVideoClick_editConfirm st img _ e hsid hedit,
          generateVideoCore_ok st
            { st with editingSceneId := none, editedDescription := "" }
            [Event.confirmPrompt unsavedEditConfirmMsg] img r hdirty]
      refine ⟨rfl, rfl, rfl, dirtyCount_self_of_nodup r.scenes hnodup, ?_⟩
      intro ob hob
      simp only [List.mem_cons, List.not_mem_nil, or_false] at hob
      rcases hob with rfl | rfl | rfl
      · exact Or.inl rfl
      · exact Or.inl rfl
      · exact Or.inr ⟨rfl, rfl, rfl⟩

/-- Witness for C2 at the spec's own scenario: a dirty two-scene state
whose resyncs succeed with result `s2`; both protocols adopt the result
and recompute zero dirtiness. -/
theorem resync_success_adopts_result_atomically_witness :
    (handleRegenerateAll
      { scenes := [{ id := 1, description := "A2" }, { id := 2, description := "B" }],
        baselineScenes := [{ id := 1, description := "A" }, { id := 2, description := "B" }],
        scenarioId := some "s1", editingSceneId := none,
        editedDescription := "", isRegenerating := false } true "img"
      (Except.ok
        { scenarioId := "s2",
          scenes := [{ id := 1, description := "A2" },
                     { id := 2, description := "B" }] })).final.baselineScenes
      = [{ id := 1, description := "A2" }, { id := 2, description := "B" }]
    ∧ (dirtyInfo
        (handleGenerateVideoClick
          { scenes := [{ id := 1, description := "A2" }, { id := 2, description := "B" }],
            baselineScenes := [{ id := 1, description := "A" }, { id := 2, description := "B" }],
            scenarioId := some "s1", editingSceneId := none,
            editedDescription := "", isRegenerating := false } true "img"
          (Except.ok { scenarioId := "s2", scenes := [{ id := 1, description := "A2" }, { id := 2, description := "B" }] })).final.scenes
        (handleGenerateVideoClick
          { scenes := [{ id := 1, description := "A2" }, { id := 2, description := "B" }],
            baselineScenes := [{ id := 1, description := "A" }, { id := 2, description := "B" }],
            scenarioId := some "s1", editingSceneId := none,
            editedDescription := "", isRegenerating := false } true "img"
          (Except.ok { scenarioId := "s2", scenes := [{ id := 1, description := "A2" }, { id := 2, description := "B" }] })).final.baselineScenes).dirtyCount
      = 0 :=
  ⟨(resync_success_adopts_result_atomically
      { scenes := [{ id := 1, description := "A2" }, { id := 2, description := "B" }],
        baselineScenes := [{ id := 1, description := "A" }, { id := 2, description := "B" }],
        scenarioId := some "s1", editingSceneId := none,
        editedDescription := "", isRegenerating := false }
      { scenarioId := "s2",
        scenes := [{ id := 1, description := "A2" },
                   { id := 2, description := "B" }] }
      "img" true (by decide) (by decide)).1.2.2.1,
   ((resync_success_adopts_result_atomically
      { scenes := [{ id := 1, description := "A2" }, { id := 2, description := "B" }],
        baselineScenes := [{ id := 1, description := "A" }, { id := 2, description := "B" }],
        scenarioId := some "s1", editingSceneId := none,
        editedDescription := "", isRegenerating := false }
      { scenarioId := "s2",
        scenes := [{ id := 1, description := "A2" },
                   { id := 2, description := "B" }] }
      "img" true (by decide) (by decide)).2 (Or.inl rfl) (by decide)).2.2.2.1⟩

/-- C3: from a state with a (truthy) scenario id, zero dirtiness, and
the edit-in-progress gate resolved (no open editor, or the user
confirms), the advance-to-video action issues no remote call at all,
leaves the live collection, the baseline and the scenario id unchanged,
and invokes the `onNext` continuation — whatever the remote oracle
would have answered. -/
theorem clean_advance_is_noop (st : Screen2State) (confirmProceed : Bool)
    (img : String) (remote : Except String ScenarioResult)
    (hsid : jsTruthyStr st.scenarioId = true)
    (hclean : (dirtyInfo st.scenes st.baselineScenes).dirtyCount = 0)
    (hgate : st.editingSceneId = none ∨ confirmProceed = true) :
    (∀ e ∈ (handleGenerateVideoClick st confirmProceed img remote).events,
       e.isRemoteCall = false)
    ∧ (handleGenerateVideoClick st confirmProceed img remote).final.scenes = st.scenes
    ∧ (handleGenerateVideoClick st confirmProceed img remote).final.baselineScenes
        = st.baselineScenes
    ∧ (handleGenerateVideoClick st confirmProceed img remote).final.scenarioId
        = st.scenarioId
    ∧ Event.nextInvoked ∈ (handleGenerateVideoClick st confirmProceed img remote).events := by
  cases hedit : st.editingSceneId with
  | none =>
    rw [handleGenerateVideoClick_noEdit st confirmProceed img remote hsid hedit,
        generateVideoCore_clean st st [] img remote hclean]
    refine ⟨?_, rfl, rfl, rfl, by simp⟩
    intro e he
    simp only [List.nil_append, List.mem_singleton] at he
    subst he
    rfl
  | some i =>
    have hc : confirmProceed = true := by
      rcases hgate with h | h
      · rw [hedit] at h; cases h
      · exact h
    subst hc
    rw [handleGenerateVideoClick_editConfirm st img remote i hsid hedit,
        generateVideoCore_clean st
          { st with editingSceneId := none, editedDescription := "" }
          [Event.confirmPrompt unsavedEditConfirmMsg] img remote hclean]
    refine ⟨?_, rfl, rfl, rfl, by simp⟩
    intro e he
    simp at he
    rcases he with rfl | rfl <;> rfl

/-- Witness for C3: a clean state advances with no remote call even when
the oracle would report an error. -/
theorem clean_advance_is_noop_witness :
    Event.nextInvoked ∈ (handleGenerateVideoClick
      { scenes := [{ id := 1, description := "A" }],
        baselineScenes := [{ id := 1, description := "A" }],
        scenarioId := some "s1", editingSceneId := none,
        editedDescription := "", isRegenerating := false } false "img"
      (Except.error "network down")).events :=
  (clean_advance_is_noop
    { scenes := [{ id := 1, description := "A" }],
      baselineScenes := [{ id := 1, description := "A" }],
      scenarioId := some "s1", editingSceneId := none,
      editedDescription := "", isRegenerating := false } false "img"
    (Except.error "network down") (by decide) (by decide)
    (Or.inl rfl)).2.2.2.2

/-- C4: a Protocol B attempt whose remote call fails (dirtiness present,
gates passed, oracle answers an error) leaves the live collection, the
baseline and the scenario id at their pre-call values, surfaces the
failure alert, does not invoke `onNext`, and clears the in-progress
flag. -/
theorem incremental_sync_failure_preserves_state (st : Screen2State)
    (confirmProceed : Bool) (img : String) (e : String)
    (hsid : jsTruthyStr st.scenarioId = true)
    (hdirty : (dirtyInfo st.scenes st.baselineScenes).dirtyCount > 0)
    (hgate : st.editingSceneId = none ∨ confirmProceed = true) :
    (handleGenerateVideoClick st confirmProceed img (Except.error e)).final.scenes = st.scenes
    ∧ (handleGenerateVideoClick st confirmProceed img (Except.error e)).final.baselineScenes
        = st.baselineScenes
    ∧ (handleGenerateVideoClick st confirmProceed img (Except.error e)).final.scenarioId
        = st.scenarioId
    ∧ Event.alert updateFailMsg
        ∈ (handleGenerateVideoClick st confirmProceed img (Except.error e)).events
    ∧ Event.nextInvoked
        ∉ (handleGenerateVideoClick st confirmProceed img (Except.error e)).events
    ∧ (handleGenerateVideoClick st confirmProceed img (Except.error e)).final.isRegenerating
        = false := by
  cases hedit : st.editingSceneId with
  | none =>
    rw [handleGenerateVideoClick_noEdit st confirmProceed img _ hsid hedit,
        generateVideoCore_err st st [] img e hdirty]
    exact ⟨rfl, rfl, rfl, by simp, by simp, rfl⟩
  | some i =>
    have hc : confirmProceed = true := by
      rcases hgate with h | h
      · rw [hedit] at h; cases h
      · exact h
    subst hc
    rw [handleGenerateVideoClick_editConfirm st img _ i hsid hedit,
        generateVideoCore_err st
          { st with editingSceneId := none, editedDescription := "" }
          [Event.confirmPrompt unsavedEditConfirmMsg] img e hdirty]
    exact ⟨rfl, rfl, rfl, by simp, by simp, rfl⟩

/-- Witness for C4: the dirty two-scene state whose sync fails keeps its
pre-call live collection. -/
theorem incremental_sync_failure_preserves_state_witness :
    (handleGenerateVideoClick
      { scenes := [{ id := 1, description := "A2" }, { id := 2, description := "B" }],
        baselineScenes := [{ id := 1, description := "A" }, { id := 2, description := "B" }],
        scenarioId := some "s1", editingSceneId := none,
        editedDescription := "", isRegenerating := false } true "img"
      (Except.error "boom")).final.scenes
      = [{ id := 1, description := "A2" }, { id := 2, description := "B" }] :=
  (incremental_sync_failure_preserves_state
    { scenes := [{ id := 1, description := "A2" }, { id := 2, description := "B" }],
      baselineScenes := [{ id := 1, description := "A" }, { id := 2, description := "B" }],
      scenarioId := some "s1", editingSceneId := none,
      editedDescription := "", isRegenerating := false } true "img" "boom"
    (by decide) (by decide) (Or.inl rfl)).1

/-- C5: in a Protocol A run with confirmation accepted (and a truthy
scenario id), the source collection is the baseline when non-empty and
otherwise the live collection; the state in force when the remote call
is issued — the middle observable — already has the live collection
reset to that source while the baseline is untouched, and the call's
payload is the source's (id, description) pairs; when the remote call
fails, the final live collection still equals the source (the reset is
not rolled back) and the baseline still equals its pre-call value. -/
theorem full_regenerate_resets_before_call (st : Screen2State)
    (img : String) (remote : Except String ScenarioResult)
    (src : List Scene)
    (hsrc : src = if st.baselineScenes.length > 0 then st.baselineScenes else st.scenes)
    (hsid : jsTruthyStr st.scenarioId = true) :
    (∃ mid fin : Screen2State,
      (handleRegenerateAll st true img remote).observables = [st, mid, fin]
      ∧ mid.scenes = src
      ∧ mid.baselineScenes = st.baselineScenes
      ∧ Event.remoteCall (st.scenarioId.getD "")
          (src.map (fun s => SceneInput.mk s.id s.description)) img
          ∈ (handleRegenerateAll st true img remote).events)
    ∧ (∀ e : String, remote = Except.error e →
        (handleRegenerateAll st true img remote).final.scenes = src
        ∧ (handleRegenerateAll st true img remote).final.baselineScenes
            = st.baselineScenes) := by
  cases remote with
  | ok r =>
    rw [handleRegenerateAll_ok st img r src hsrc hsid]
    exact ⟨⟨{ st with isRegenerating := true, scenes := src }, _,
      rfl, rfl, rfl, by simp⟩, fun e he => by cases he⟩
  | error e0 =>
    rw [handleRegenerateAll_err st img e0 src hsrc hsid]
    exact ⟨⟨{ st with isRegenerating := true, scenes := src }, _,
      rfl, rfl, rfl, by simp⟩, fun e _ => ⟨rfl, rfl⟩⟩

/-- Witness for C5 at the spec's scenario: baseline `[(1, A2), (2, B)]`
non-empty, so the failing run's final live collection equals the
baseline. -/
theorem full_regenerate_resets_before_call_witness :
    (handleRegenerateAll
      { scenes := [{ id := 1, description := "X" }, { id := 2, description := "Y" }],
        baselineScenes := [{ id := 1, description := "A2" }, { id := 2, description := "B" }],
        scenarioId := some "s1", editingSceneId := none,
        editedDescription := "", isRegenerating := false } true "img"
      (Except.error "boom")).final.scenes
      = [{ id := 1, description := "A2" }, { id := 2, description := "B" }] :=
  ((full_regenerate_resets_before_call
    { scenes := [{ id := 1, description := "X" }, { id := 2, description := "Y" }],
      baselineScenes := [{ id := 1, description := "A2" }, { id := 2, description := "B" }],
      scenarioId := some "s1", editingSceneId := none,
      editedDescription := "", isRegenerating := false } "img"
    (Except.error "boom")
    [{ id := 1, description := "A2" }, { id := 2, description := "B" }]
    (by decide) (by decide)).2 "boom" rfl).1

/-- C6: while the sync-in-progress flag is set, clicking either protocol
button is ignored (the buttons are disabled: no state change, no events,
in particular no second remote call); and in every run of either handler
that issues a remote call, the flag is already set in the observable
state from which the call is issued and is cleared in the final state,
on success and on failure alike. -/
theorem single_resync_in_flight (st : Screen2State) (c : Bool)
    (img : String) (remote : Except String ScenarioResult) :
    (st.isRegenerating = true →
      clickRegenerateAll st c img remote = noopRun st
      ∧ clickGenerateVideo st c img remote = noopRun st
      ∧ (noopRun st).events = [])
    ∧ ((∃ e ∈ (handleRegenerateAll st c img remote).events, e.isRemoteCall = true) →
       ∃ mid fin : Screen2State,
         (handleRegenerateAll st c img remote).observables = [st, mid, fin]
         ∧ mid.isRegenerating = true ∧ fin.isRegenerating = false
         ∧ (handleRegenerateAll st c img remote).final = fin)
    ∧ ((∃ e ∈ (handleGenerateVideoClick st c img remote).events, e.isRemoteCall = true) →
       ∃ mid fin : Screen2State,
         (handleGenerateVideoClick st c img remote).observables = [st, mid, fin]
         ∧ mid.isRegenerating = true ∧ fin.isRegenerating = false
         ∧ (handleGenerateVideoClick st c img remote).final = fin) := by
  refine ⟨?_, ?_, ?_⟩
  · intro hflag
    refine ⟨?_, ?_, rfl⟩
    · unfold clickRegenerateAll isRegenAllDisabled
      rw [hflag]
      simp
    · unfold clickGenerateVideo
      rw [hflag]
      simp
  · intro hcall
    by_cases hsid : jsTruthyStr st.scenarioId = true
    · cases c with
      | false =>
        rw [handleRegenerateAll_declined st img remote hsid] at hcall
        obtain ⟨e, he, hre⟩ := hcall
        simp only [List.mem_singleton] at he
        subst he
        cases hre
      | true =>
        cases remote with
        | ok r =>
          rw [handleRegenerateAll_ok st img r _ rfl hsid]
          exact ⟨_, _, rfl, rfl, rfl, rfl⟩
        | error e =>
          rw [handleRegenerateAll_err st img e _ rfl hsid]
          exact ⟨_, _, rfl, rfl, rfl, rfl⟩
    · have hsid' : jsTruthyStr st.scenarioId = false := by
        cases h : jsTruthyStr st.scenarioId
        · rfl
        · exact absurd h hsid
      rw [handleRegenerateAll_noSid st c img remote hsid'] at hcall
      obtain ⟨e, he, _⟩ := hcall
      cases he
  · intro hcall
    by_cases hsid : jsTruthyStr st.scenarioId = true
    · cases hedit : st.editingSceneId with
      | none =>
        rw [handleGenerateVideoClick_noEdit st c img remote hsid hedit] at hcall ⊢
        exact generateVideoCore_flag st st [] img remote (by intro e he; cases he) hcall
      | some i =>
        cases c with
        | false =>
          rw [handleGenerateVideoClick_editDeclined st img remote i hsid hedit] at hcall
          obtain ⟨e, he, hre⟩ := hcall
          simp only [List.mem_singleton] at he
          subst he
          cases hre
        | true =>
          rw [handleGenerateVideoClick_editConfirm st img remote i hsid hedit] at hcall ⊢
          refine generateVideoCore_flag st
            { st with editingSceneId := none, editedDescription := "" }
            [Event.confirmPrompt unsavedEditConfirmMsg] img remote ?_ hcall
          intro e he
          simp only [List.mem_singleton] at he
          subst he
          rfl
    · have hsid' : jsTruthyStr st.scenarioId = false := by
        cases h : jsTruthyStr st.scenarioId
        · rfl
        · exact absurd h hsid
      rw [handleGenerateVideoClick_noSid st c img remote hsid'] at hcall
      obtain ⟨e, he, hre⟩ := hcall
      simp only [List.mem_singleton] at he
      subst he
      cases hre

/-- Witness for C6: with the flag set, both clicks reduce to the empty
no-op run. -/
theorem single_resync_in_flight_witness :
    clickRegenerateAll
      { scenes := [{ id := 1, description := "A" }], baselineScenes := [],
        scenarioId := some "s1", editingSceneId := none,
        editedDescription := "", isRegenerating := true } true "img"
      (Except.ok { scenarioId := "s2", scenes := [] })
      = noopRun
        { scenes := [{ id := 1, description := "A" }], baselineScenes := [],
          scenarioId := some "s1", editingSceneId := none,
          editedDescription := "", isRegenerating := true } :=
  ((single_resync_in_flight
    { scenes := [{ id := 1, description := "A" }], baselineScenes := [],
      scenarioId := some "s1", editingSceneId := none,
      editedDescription := "", isRegenerating := true } true "img"
    (Except.ok { scenarioId := "s2", scenes := [] })).1 rfl).1

/-- C7: the implicit capture sets the baseline only when it is empty and
the observed live collection non-empty, and never overwrites a non-empty
baseline; no edit handler (save, open, cancel) ever touches the
baseline; and either protocol handler changes the baseline only when its
run is a confirmed successful resync, in which case the new baseline is
the returned scene collection. -/
theorem baseline_capture_once_and_resync_only :
    (∀ st : Screen2State, st.baselineScenes ≠ [] → captureBaselineIfEmpty st = st)
    ∧ (∀ st : Screen2State, st.baselineScenes = [] → st.scenes ≠ [] →
        captureBaselineIfEmpty st = { st with baselineScenes := st.scenes })
    ∧ (∀ st : Screen2State, (handleSaveEdit st).baselineScenes = st.baselineScenes)
    ∧ (∀ (st : Screen2State) (i : Int) (d : String),
        (handleEditScene st i d).baselineScenes = st.baselineScenes)
    ∧ (∀ st : Screen2State, (handleCancelEdit st).baselineScenes = st.baselineScenes)
    ∧ (∀ (st : Screen2State) (c : Bool) (img : String)
        (remote : Except String ScenarioResult),
        (handleRegenerateAll st c img remote).final.baselineScenes ≠ st.baselineScenes →
        c = true ∧ ∃ r, remote = Except.ok r
          ∧ (handleRegenerateAll st c img remote).final.baselineScenes = r.scenes)
    ∧ (∀ (st : Screen2State) (c : Bool) (img : String)
        (remote : Except String ScenarioResult),
        (handleGenerateVideoClick st c img remote).final.baselineScenes ≠ st.baselineScenes →
        ∃ r, remote = Except.ok r
          ∧ (handleGenerateVideoClick st c img remote).final.baselineScenes = r.scenes) := by
  refine ⟨?_, ?_, ?_, ?_, ?_, ?_, ?_⟩
  · intro st h
    unfold captureBaselineIfEmpty
    rw [if_neg]
    intro hc
    exact h (List.length_eq_zero.mp hc.1)
  · intro st h1 h2
    unfold captureBaselineIfEmpty
    rw [if_pos ⟨by rw [h1]; rfl, List.length_pos.mpr h2⟩]
  · intro st
    unfold handleSaveEdit
    split <;> rfl
  · intro st i d
    rfl
  · intro st
    rfl
  · intro st c img remote h
    by_cases hsid : jsTruthyStr st.scenarioId = true
    · cases c with
      | false =>
        rw [handleRegenerateAll_declined st img remote hsid] at h
        exact absurd rfl h
      | true =>
        refine ⟨rfl, ?_⟩
        cases remote with
        | ok r =>
          rw [handleRegenerateAll_ok st img r _ rfl hsid]
          exact ⟨r, rfl, rfl⟩
        | error e =>
          rw [handleRegenerateAll_err st img e _ rfl hsid] at h
          exact absurd rfl h
    · have hsid' : jsTruthyStr st.scenarioId = false := by
        cases hx : jsTruthyStr st.scenarioId
        · rfl
        · exact absurd hx hsid
      rw [handleRegenerateAll_noSid st c img remote hsid'] at h
      exact absurd rfl h
  · intro st c img remote h
    by_cases hsid : jsTruthyStr st.scenarioId = true
    · cases hedit : st.editingSceneId with
      | none =>
        rw [handleGenerateVideoClick_noEdit st c img remote hsid hedit] at h ⊢
        exact generateVideoCore_baseline st st [] img remote rfl h
      | some i =>
        cases c with
        | false =>
          rw [handleGenerateVideoClick_editDeclined st img remote i hsid hedit] at h
          exact absurd rfl h
        | true =>
          rw [handleGenerateVideoClick_editConfirm st img remote i hsid hedit] at h ⊢
          exact generateVideoCore_baseline st
            { st with editingSceneId := none, editedDescription := "" }
            [Event.confirmPrompt unsavedEditConfirmMsg] img remote rfl h
    · have hsid' : jsTruthyStr st.scenarioId = false := by
        cases hx : jsTruthyStr st.scenarioId
        · rfl
        · exact absurd hx hsid
      rw [handleGenerateVideoClick_noSid st c img remote hsid'] at h
      exact absurd rfl h

/-- Witness for C7: capturing over a non-empty baseline is the identity,
while capturing into an empty baseline adopts the observed collection. -/
theorem baseline_capture_once_and_resync_only_witness :
    captureBaselineIfEmpty
      { scenes := [{ id := 1, description := "X" }],
        baselineScenes := [{ id := 1, description := "A" }],
        scenarioId := some "s1", editingSceneId := none,
        editedDescription := "", isRegenerating := false }
      = { scenes := [{ id := 1, description := "X" }],
          baselineScenes := [{ id := 1, description := "A" }],
          scenarioId := some "s1", editingSceneId := none,
          editedDescription := "", isRegenerating := false } :=
  baseline_capture_once_and_resync_only.1
    { scenes := [{ id := 1, description := "X" }],
      baselineScenes := [{ id := 1, description := "A" }],
      scenarioId := some "s1", editingSceneId := none,
      editedDescription := "", isRegenerating := false } (by decide)

theorem forall2_map_self {α β : Type} (f : α → β) (R : β → α → Prop)
    (l : List α) (h : ∀ a ∈ l, R (f a) a) : List.Forall₂ R (l.map f) l := by
  induction l with
  | nil => exact List.Forall₂.nil
  | cons a t ih =>
    exact List.Forall₂.cons (h a (List.mem_cons_self a t))
      (ih fun b hb => h b (List.mem_cons_of_mem a hb))

/-- C9 (amended): for every state whose editing id is a non-null,
nonzero scene id, `handleSaveEdit` maps the live collection to one of
the same length and order in which exactly the scenes whose id equals
the editing id get the edited description (all their other fields
unchanged) and every other scene is untouched; when no live scene has
the editing id the live collection is unchanged; and when the editing id
is null or `0` (JavaScript truthiness of the `if (editingSceneId)`
guard) the state is returned unchanged. -/
theorem save_edit_replaces_matching_description :
    (∀ (st : Screen2State) (eid : Int),
      st.editingSceneId = some eid → eid ≠ 0 →
      (handleSaveEdit st).scenes.length = st.scenes.length
      ∧ List.Forall₂ (fun (out inp : Scene) =>
          (inp.id = eid → out = { inp with description := st.editedDescription })
          ∧ (inp.id ≠ eid → out = inp))
          (handleSaveEdit st).scenes st.scenes
      ∧ ((∀ s ∈ st.scenes, s.id ≠ eid) → (handleSaveEdit st).scenes = st.scenes))
    ∧ (∀ st : Screen2State,
        jsTruthyOptInt st.editingSceneId = false → handleSaveEdit st = st) := by
  constructor
  · intro st eid heid h0
    have hg : jsTruthyOptInt st.editingSceneId = true := by
      rw [heid]; simp [jsTruthyOptInt, h0]
    have hscenes : (handleSaveEdit st).scenes = st.scenes.map (fun scene =>
        if scene.id = eid then { scene with description := st.editedDescription }
        else scene) := by
      unfold handleSaveEdit
      rw [hg, heid]
      simp
    refine ⟨by rw [hscenes]; exact List.length_map _ _, ?_, ?_⟩
    · rw [hscenes]
      refine forall2_map_self _ _ _ (fun a _ => ?_)
      by_cases h : a.id = eid <;> simp [h]
    · intro hnone
      rw [hscenes]
      have : ∀ s ∈ st.scenes, (if s.id = eid
          then { s with description := st.editedDescription } else s) = s := by
        intro s hs
        rw [if_neg (hnone s hs)]
      rw [List.map_congr_left this]
      exact List.map_id st.scenes
  · intro st hfalsy
    unfold handleSaveEdit
    rw [hfalsy]
    simp

/-- Witness for the amended C9: editing scene 1 of a two-scene
collection to `A2` leaves the length unchanged and rewrites exactly
scene 1's description. -/
theorem save_edit_replaces_matching_description_witness :
    ({ scenes := [{ id := 1, description := "A" }, { id := 2, description := "B" }],
       baselineScenes := [], scenarioId := some "s1",
       editingSceneId := some 1, editedDescription := "A2",
       isRegenerating := false } : Screen2State).editingSceneId = some 1
    ∧ (handleSaveEdit
       { scenes := [{ id := 1, description := "A" }, { id := 2, description := "B" }],
         baselineScenes := [], scenarioId := some "s1",
         editingSceneId := some 1, editedDescription := "A2",
         isRegenerating := false }).scenes.length
      = ([{ id := 1, description := "A" }, { id := 2, description := "B" }] : List Scene).length :=
  ⟨rfl,
   (save_edit_replaces_matching_description.1
     { scenes := [{ id := 1, description := "A" }, { id := 2, description := "B" }],
       baselineScenes := [], scenarioId := some "s1",
       editingSceneId := some 1, editedDescription := "A2",
       isRegenerating := false } 1 rfl (by decide)).1⟩

/-- Counterexample to C9 as stated: with a scene of id `0` in the live
collection and editing id `0`, `handleSaveEdit` leaves the description
untouched (the source's `if (editingSceneId)` guard treats `0` as
falsy), although the claim asserts the matching scene's description is
replaced by the edited text. -/
theorem save_edit_zero_id_counterexample :
    handleSaveEdit
      { scenes := [{ id := 0, description := "A" }],
        baselineScenes := [], scenarioId := some "s1",
        editingSceneId := some 0, editedDescription := "B",
        isRegenerating := false }
      = { scenes := [{ id := 0, description := "A" }],
          baselineScenes := [], scenarioId := some "s1",
          editingSceneId := some 0, editedDescription := "B",
          isRegenerating := false }
    ∧ (({ id := 0, description := "A" } : Scene).id = 0
        ∧ ({ id := 0, description := "A" } : Scene).description ≠ "B") := by
  exact ⟨rfl, rfl, by decide⟩

theorem fallback_chain_eq_spec (e d m : Option String) (text : String)
    (status : Nat) :
    (jsOrV (jsOrV (jsOrV (jsOrV (optToJs e) (optToJs d)) (optToJs m))
      (JsVal.str text)) (JsVal.str ("HTTP " ++ toString status))).toStr
      = specFallbackMessage e d m text status := by
  rcases e with _ | es <;> rcases d with _ | ds <;> rcases m with _ | ms <;>
    simp only [optToJs, jsOrV, JsVal.truthy, JsVal.toStr, specFallbackMessage,
      jsTruthyStr, Option.getD_some, Bool.false_eq_true, if_false] <;>
    split_ifs <;> simp_all

/-- C8: every non-ok response is rejected with a single normalized
message: `requestJson` returns `API Error: ` followed by exactly the
message the spec's fallback priority prescribes — the structured error
field's message when truthy, else the detail field, else the message
field, else the raw body text, else `HTTP <status>` — so no error
escapes the call boundary un-normalized. -/
theorem requestJson_error_normalization (res : HttpResponse)
    (hok : res.ok = false) :
    requestJson res = Except.error ("API Error: " ++
      specFallbackMessage (payloadErrorMessage (parsedPayload res))
        (payloadDetail (parsedPayload res)) (payloadMessage (parsedPayload res))
        res.text res.status)
    ∧ ∃ msg : String, requestJson res = Except.error ("API Error: " ++ msg) := by
  have h : requestJson res = Except.error ("API Error: " ++
      (jsOrV (jsOrV (jsOrV (jsOrV (optToJs (payloadErrorMessage (parsedPayload res)))
                                  (optToJs (payloadDetail (parsedPayload res))))
                           (optToJs (payloadMessage (parsedPayload res))))
                    (JsVal.str res.text))
             (JsVal.str ("HTTP " ++ toString res.status))).toStr) := by
    unfold requestJson
    rw [hok]
    simp
  rw [h, fallback_chain_eq_spec]
  exact ⟨rfl, _, rfl⟩

/-- Witness for C8: a 404 with empty body normalizes to the HTTP-status
fallback string. -/
theorem requestJson_error_normalization_witness :
    ∃ msg : String,
      requestJson { ok := false, status := 404, text := "", jsonParse := none }
        = Except.error ("API Error: " ++ msg) :=
  (requestJson_error_normalization
    { ok := false, status := 404, text := "", jsonParse := none } rfl).2

/-- C10: the demo-mode `regenerateScenario` echoes the scenario id and
maps each input scene, in order, to one output scene with the same id
and description, duration 4, title `Scene <id>` and image url
`/demo/images/scene-<id>.png`; in particular the output ids are exactly
the input ids, so no demo resync reassigns ids. -/
theorem demo_regenerate_preserves_ids (sid : String) (scenes : List SceneInput) :
    (demoRegenerateScenario sid scenes).scenarioId = sid
    ∧ (demoRegenerateScenario sid scenes).scenes.length = scenes.length
    ∧ List.Forall₂ (fun (out : DemoSceneOutput) (inp : SceneInput) =>
        out.id = inp.id ∧ out.description = inp.description ∧
        out.duration_sec = 4 ∧
        out.title = some ("Scene " ++ toString inp.id) ∧
        out.imageUrl = some ("/demo/images/scene-" ++ toString inp.id ++ ".png"))
        (demoRegenerateScenario sid scenes).scenes scenes
    ∧ (demoRegenerateScenario sid scenes).scenes.map (fun o => o.id)
        = scenes.map (fun s => s.id) := by
  refine ⟨rfl, by simp [demoRegenerateScenario], ?_, by simp [demoRegenerateScenario]⟩
  unfold demoRegenerateScenario
  simp only
  induction scenes with
  | nil => exact List.Forall₂.nil
  | cons a t ih => exact List.Forall₂.cons ⟨rfl, rfl, rfl, rfl, rfl⟩ ih

end MovieLog
